import Mathlib

/-!
Verification of the stellar-evolution and population-synthesis core of the
AstroUtils repository, shallowly embedded in Lean 4.

Numeric conventions: the Rust code computes with `f32`/`f64`; following the
spec's reading of those values as plain numbers, float arithmetic is modelled
as exact arithmetic over `ℚ` (and over `ℝ` where irrational functions such as
cube roots and powers appear).  Machine indices become `Nat`.
Fallible code returns `Except`/`Option`.  Decimal source literals such as
`0.09` are written as exact rationals (`cM 9 = 9/100`) so that every
definition evaluates inside the kernel.
-/

namespace AstroUtils

/-- Error taxonomy of the crate (`AstroUtilError`).  Only the variants touched
by the verified code paths are modelled; the `Io` variant carries its message
as a plain string (the Rust payload is `std::io::Error`) and is rendered
`ioErr` here. -/
inductive AstroUtilError where
  | parsec_data_not_available
  | ioErr (msg : String)
  | mutex_poison
deriving DecidableEq, Repr

/-- `f32::abs` / `f64::abs` of the source, as executable rational code.
Agrees with Mathlib's `|·|` (see `fabs_eq_abs`). -/
def fabs (q : ℚ) : ℚ := if q < 0 then -q else q

/-- Hundredths: `cM n` renders the source decimal literal `n/100`
(e.g. `cM 9 = 0.09`). -/
def cM (n : ℤ) : ℚ := mkRat n 100

namespace Parsec

/-- `ParsecData::SORTED_MASSES` from `src/stars/parsec_data.rs` (lines 32-40):
the fixed ascending grid of 100 representative stellar masses in solar
masses.  Each entry is the source decimal written in hundredths, so
`cM 9 = 0.09`, `cM 100 = 1.00`, …, `cM 35000 = 350.0`. -/
def SORTED_MASSES : List ℚ := [
  cM 9, cM 10, cM 12, cM 14, cM 16, cM 20, cM 25, cM 30, cM 35, cM 40,
  cM 45, cM 50, cM 55, cM 60, cM 65, cM 70, cM 75, cM 80, cM 85, cM 90,
  cM 95, cM 100, cM 105, cM 110, cM 115, cM 120, cM 125, cM 130, cM 135, cM 140,
  cM 145, cM 150, cM 155, cM 160, cM 165, cM 170, cM 175, cM 180, cM 185, cM 190,
  cM 195, cM 200, cM 205, cM 210, cM 215, cM 220, cM 225, cM 230, cM 240, cM 260,
  cM 280, cM 300, cM 320, cM 340, cM 360, cM 380, cM 400, cM 420, cM 440, cM 460,
  cM 480, cM 500, cM 520, cM 540, cM 560, cM 580, cM 600, cM 620, cM 640, cM 700,
  cM 800, cM 900, cM 1000, cM 1200, cM 1400, cM 1600, cM 1800, cM 2000, cM 2400, cM 2800,
  cM 3000, cM 3500, cM 4000, cM 4500, cM 5000, cM 5500, cM 6000, cM 6500, cM 7000, cM 7500,
  cM 8000, cM 9000, cM 9500, cM 10000, cM 12000, cM 13000, cM 20000, cM 25000, cM 30000, cM 35000]

/-- Total-function access to the mass grid (`Self::SORTED_MASSES[i]`); all
verified accesses stay in bounds, the default is never reached. -/
def sm (i : ℕ) : ℚ := SORTED_MASSES.getD i 0

/-- The `while max_index - min_index > 1` loop of
`ParsecData::get_closest_mass_index` (lines 68-79).  The Rust comparison
`mass > mid_mass` is written `sm mid_index < mass`.  The loop strictly shrinks
`max_index - min_index`, so any fuel of at least `max_index - min_index`
iterations makes the fuel-exhaustion branch unreachable. -/
def bsLoop (mass : ℚ) : ℕ → ℕ → ℕ → ℕ × ℕ
  | 0, min_index, max_index => (min_index, max_index)
  | fuel + 1, min_index, max_index =>
    if max_index - min_index > 1 then
      let mid_index := (max_index + min_index) / 2
      if sm mid_index < mass then bsLoop mass fuel mid_index max_index
      else bsLoop mass fuel min_index mid_index
    else (min_index, max_index)

/-- `ParsecData::get_closest_mass_index` (lines 68-87): binary search over the
ascending grid followed by an absolute-difference comparison between the two
remaining candidates. -/
def get_closest_mass_index (mass : ℚ) : ℕ :=
  let p := bsLoop mass SORTED_MASSES.length 0 (SORTED_MASSES.length - 1)
  if fabs (mass - sm p.1) < fabs (mass - sm p.2) then p.1 else p.2

end Parsec

namespace Evolution

/-- Modelled from the spec: `StarFate` and its per-quantity post-death
extrapolation functions live in `src/stars/fate.rs`, which is not among the
provided sources.  The spec treats them as "an opaque external rule, not
reimplemented here beyond being evaluated at a signed time-since-death", so a
fate is modelled as an abstract record of per-quantity functions
`(current value, elapsed time since death) ↦ value`. -/
structure StarFate where
  apply_to_mass : ℚ → ℚ → ℚ
  apply_to_radius : ℚ → ℚ → ℚ
  apply_to_luminous_intensity : ℚ → ℚ → ℚ
  apply_to_temperature : ℚ → ℚ → ℚ

/-- `StarDataLifestageEvolution` (`src/stars/evolution.rs` lines 163-169):
finite-difference per-year drift rates. -/
structure StarDataLifestageEvolution where
  mass_per_year : ℚ
  radius_per_year : ℚ
  luminous_intensity_per_year : ℚ
  temperature_per_year : ℚ
deriving DecidableEq

/-- The fields of `StarData` (`src/stars/star_data.rs`) read by
`StarDataLifestageEvolution::new`; the remaining fields (name, color,
position, …) play no role in the verified claims and are omitted. -/
structure StarData where
  mass : Option ℚ
  radius : Option ℚ
  luminous_intensity : Option ℚ
  temperature : ℚ

/-- `StarDataEvolution` (`src/stars/evolution.rs` lines 11-17). -/
structure StarDataEvolution where
  lifestage_evolution : Option StarDataLifestageEvolution
  age : Option ℚ
  lifetime : ℚ
  fate : StarFate

/-- One Julian year in seconds, `365.25 * 24 * 60 * 60` (the constant used
both by the crate's time unit conversions and by the timescales in
`has_changed`); `365.25 = 1461/4`. -/
def SECONDS_PER_YEAR : ℚ := mkRat 1461 4 * (24 * 60 * 60)

/-- `Time::to_yr`: seconds to Julian years. -/
def to_yr (t : ℚ) : ℚ := t / SECONDS_PER_YEAR

/-- `Time::from_yr`: Julian years to seconds. -/
def from_yr (y : ℚ) : ℚ := y * SECONDS_PER_YEAR

/-- `EVOLUTION_TIMESCALE` of `has_changed` (lines 42-44): 1000 Julian years
in seconds. -/
def EVOLUTION_TIMESCALE : ℚ := 1000 * (mkRat 1461 4 * (24 * 60 * 60))

/-- `DEATH_TIMESCALE` of `has_changed` (lines 45-47): one Julian year in
seconds. -/
def DEATH_TIMESCALE : ℚ := mkRat 1461 4 * (24 * 60 * 60)

/-- `StarDataEvolution::time_until_death` (lines 64-66):
`lifetime - age - time_since_epoch`, `None` when the age is unknown. -/
def time_until_death (e : StarDataEvolution) (time_since_epoch : ℚ) : Option ℚ :=
  e.age.map (fun age => e.lifetime - age - time_since_epoch)

/-- `StarDataEvolution::apply_to_mass` (lines 68-78). -/
def apply_to_mass (e : StarDataEvolution) (mass : ℚ) (time_since_epoch : ℚ) : ℚ :=
  match time_until_death e time_since_epoch with
  | some tud =>
    if tud < 0 then e.fate.apply_to_mass mass (-tud)
    else
      match e.lifestage_evolution with
      | some lifestage_evolution =>
        mass + lifestage_evolution.mass_per_year * to_yr time_since_epoch
      | none => mass
  | none =>
    match e.lifestage_evolution with
    | some lifestage_evolution =>
      mass + lifestage_evolution.mass_per_year * to_yr time_since_epoch
    | none => mass

/-- `StarDataEvolution::apply_to_radius` (lines 80-94). -/
def apply_to_radius (e : StarDataEvolution) (radius : ℚ) (time_since_epoch : ℚ) : ℚ :=
  match time_until_death e time_since_epoch with
  | some tud =>
    if tud < 0 then e.fate.apply_to_radius radius (-tud)
    else
      match e.lifestage_evolution with
      | some lifestage_evolution =>
        radius + lifestage_evolution.radius_per_year * to_yr time_since_epoch
      | none => radius
  | none =>
    match e.lifestage_evolution with
    | some lifestage_evolution =>
      radius + lifestage_evolution.radius_per_year * to_yr time_since_epoch
    | none => radius

/-- `StarDataEvolution::apply_to_luminous_intensity` (lines 96-113). -/
def apply_to_luminous_intensity (e : StarDataEvolution) (luminous_intensity : ℚ)
    (time_since_epoch : ℚ) : ℚ :=
  match time_until_death e time_since_epoch with
  | some tud =>
    if tud < 0 then e.fate.apply_to_luminous_intensity luminous_intensity (-tud)
    else
      match e.lifestage_evolution with
      | some lifestage_evolution =>
        luminous_intensity + lifestage_evolution.luminous_intensity_per_year * to_yr time_since_epoch
      | none => luminous_intensity
  | none =>
    match e.lifestage_evolution with
    | some lifestage_evolution =>
      luminous_intensity + lifestage_evolution.luminous_intensity_per_year * to_yr time_since_epoch
    | none => luminous_intensity

/-- `StarDataEvolution::apply_to_temperature` (lines 115-132). -/
def apply_to_temperature (e : StarDataEvolution) (temperature : ℚ)
    (time_since_epoch : ℚ) : ℚ :=
  match time_until_death e time_since_epoch with
  | some tud =>
    if tud < 0 then e.fate.apply_to_temperature temperature (-tud)
    else
      match e.lifestage_evolution with
      | some lifestage_evolution =>
        temperature + lifestage_evolution.temperature_per_year * to_yr time_since_epoch
      | none => temperature
  | none =>
    match e.lifestage_evolution with
    | some lifestage_evolution =>
      temperature + lifestage_evolution.temperature_per_year * to_yr time_since_epoch
    | none => temperature

/-- `StarDataEvolution::get_lifestage_mass_per_year` (lines 134-139). -/
def get_lifestage_mass_per_year (e : StarDataEvolution) : ℚ :=
  (e.lifestage_evolution.map (fun l => l.mass_per_year)).getD 0

/-- `StarDataEvolution::get_lifestage_radius_per_year` (lines 141-146). -/
def get_lifestage_radius_per_year (e : StarDataEvolution) : ℚ :=
  (e.lifestage_evolution.map (fun l => l.radius_per_year)).getD 0

/-- `StarDataEvolution::get_lifestage_luminous_intensity_per_year`
(lines 148-153). -/
def get_lifestage_luminous_intensity_per_year (e : StarDataEvolution) : ℚ :=
  (e.lifestage_evolution.map (fun l => l.luminous_intensity_per_year)).getD 0

/-- `StarDataEvolution::get_lifestage_temperature_per_year` (lines 155-160). -/
def get_lifestage_temperature_per_year (e : StarDataEvolution) : ℚ :=
  (e.lifestage_evolution.map (fun l => l.temperature_per_year)).getD 0

/-- `StarDataEvolution::has_changed` (lines 41-62). -/
def has_changed (e : StarDataEvolution) (t_then t_now : ℚ) : Bool :=
  (match time_until_death e t_now with
   | some tud => decide (tud < 0) && decide (fabs tud < DEATH_TIMESCALE)
   | none => false)
  || (e.lifestage_evolution.isSome && decide (fabs (t_then - t_now) > EVOLUTION_TIMESCALE))

/-- `StarDataLifestageEvolution::new` (lines 171-195): per-channel
finite-difference rates `(now - then) / years`, defaulting to a zero rate
when an optional operand is missing on either side; the temperature channel
is not optional. -/
def StarDataLifestageEvolution.new (now t_then : StarData) (years : ℚ) :
    StarDataLifestageEvolution where
  mass_per_year :=
    match now.mass, t_then.mass with
    | some now_mass, some then_mass => (now_mass - then_mass) / years
    | _, _ => 0
  radius_per_year :=
    match now.radius, t_then.radius with
    | some now_radius, some then_radius => (now_radius - then_radius) / years
    | _, _ => 0
  luminous_intensity_per_year :=
    match now.luminous_intensity, t_then.luminous_intensity with
    | some now_li, some then_li => (now_li - then_li) / years
    | _, _ => 0
  temperature_per_year := (now.temperature - t_then.temperature) / years

/-- A concrete fate used by the C2 witness. -/
def c2_fate : StarFate :=
  ⟨fun v s => v + s, fun v s => v * s, fun v _ => v, fun _ s => s⟩

/-- A concrete evolution state with known age 5 s and lifetime 3 s, so that
`time_until_death` is negative at epoch. -/
def c2_evolution : StarDataEvolution := ⟨none, some 5, 3, c2_fate⟩

/-- A concrete fate used by the C3 witness. -/
def c3_fate : StarFate :=
  ⟨fun v _ => v, fun v _ => v, fun v _ => v, fun v _ => v⟩

/-- A concrete "now" snapshot for the C3 witness. -/
def c3_now : StarData := ⟨some 10, some 4, some 8, 6000⟩

/-- A concrete "then" snapshot for the C3 witness. -/
def c3_then : StarData := ⟨some 8, some 3, some 6, 5000⟩

/-- A concrete fate used by the C4 counterexample. -/
def c4_fate : StarFate :=
  ⟨fun v _ => v, fun v _ => v, fun v _ => v, fun v _ => v⟩

/-- A star whose death lies half a year in the future at `now = 0`:
age 0, lifetime half of `DEATH_TIMESCALE`, no lifestage rates. -/
def c4_evolution : StarDataEvolution := ⟨none, some 0, DEATH_TIMESCALE / 2, c4_fate⟩

/-- A concrete fate used by the C5 witness. -/
def c5_fate : StarFate :=
  ⟨fun v s => v - s, fun v s => v + s, fun v _ => v, fun _ s => s⟩

/-- A concrete evolution state with unknown age and all-zero lifestage
rates. -/
def c5_evolution : StarDataEvolution := ⟨some ⟨0, 0, 0, 0⟩, none, 7, c5_fate⟩

end Evolution

namespace Parsec

/-- `ParsecLine` (`src/stars/parsec_data.rs` lines 18-24): one tabulated row. -/
structure ParsecLine where
  mass : ℚ
  age : ℚ
  log_l : ℚ
  log_te : ℚ
  log_r : ℚ
deriving DecidableEq, Inhabited

/-- `ParsecData::MASS_INDEX` (line 41). -/
def MASS_INDEX : ℕ := 1

/-- `ParsecData::AGE_INDEX` (line 42). -/
def AGE_INDEX : ℕ := 2

/-- `ParsecData::LOG_L_INDEX` (line 43). -/
def LOG_L_INDEX : ℕ := 3

/-- `ParsecData::LOG_TE_INDEX` (line 44). -/
def LOG_TE_INDEX : ℕ := 4

/-- `ParsecData::LOG_R_INDEX` (line 45). -/
def LOG_R_INDEX : ℕ := 5

/-- The scan loop of `ParsecData::get_closest_params` (lines 208-222): walks
the trajectory with running index `i`, carrying the best age difference and
its index.  The Rust initialisation `closest_age = Float::MAX` is modelled by
`none` ("no finite best yet"), which any finite first difference beats,
exactly as any finite `f32` beats `Float::MAX` in the strict `<`. -/
def cpGo (actual_age_in_years : ℚ) :
    List ParsecLine → ℕ → Option ℚ → ℕ → ℕ
  | [], _, _, age_index => age_index
  | line :: rest, i, best, age_index =>
    let age_difference := fabs (line.age - actual_age_in_years)
    match best with
    | none => cpGo actual_age_in_years rest (i + 1) (some age_difference) i
    | some closest_age =>
      if age_difference < closest_age then
        cpGo actual_age_in_years rest (i + 1) (some age_difference) i
      else
        cpGo actual_age_in_years rest (i + 1) (some closest_age) age_index

/-- The index selected by `ParsecData::get_closest_params`. -/
def get_closest_params_index (trajectory : List ParsecLine)
    (actual_age_in_years : ℚ) : ℕ :=
  cpGo actual_age_in_years trajectory 0 none 0

/-- `ParsecData::get_closest_params` (lines 208-222): the snapshot at the
selected index (`&trajectory[age_index]`; callers never pass an empty
trajectory). -/
def get_closest_params (trajectory : List ParsecLine)
    (actual_age_in_years : ℚ) : ParsecLine :=
  trajectory.getD (get_closest_params_index trajectory actual_age_in_years) default

/-- `ParsecData::read_line` (lines 136-185).  A text token is modelled by its
`str::parse::<Float>()` outcome, `Option ℚ`; a row is the list of its
whitespace-separated tokens, `entries.get? k = none` meaning "column `k`
missing".  The state threaded through a file is the current `mass_position`
and the per-slot trajectory data. -/
def read_line (entries : List (Option ℚ)) (mass_position : Option ℕ)
    (data : List (List ParsecLine)) :
    Except AstroUtilError (Option ℕ × List (List ParsecLine)) :=
  match entries.get? MASS_INDEX with
  | none => Except.error AstroUtilError.parsec_data_not_available
  | some mass_entry =>
    let mass_position :=
      match mass_position, mass_entry with
      | none, some mass_value => some (get_closest_mass_index mass_value)
      | mp, _ => mp
    match mass_position with
    | none => Except.ok (none, data)
    | some mp =>
      match entries.get? AGE_INDEX, entries.get? LOG_L_INDEX,
          entries.get? LOG_TE_INDEX, entries.get? LOG_R_INDEX with
      | some age_entry, some log_l_entry, some log_te_entry, some log_r_entry =>
        match mass_entry, age_entry, log_l_entry, log_te_entry, log_r_entry with
        | some mass, some age, some log_l, some log_te, some log_r =>
          match data.get? mp with
          | some trajectory =>
            Except.ok (some mp, data.set mp (trajectory ++ [⟨mass, age, log_l, log_te, log_r⟩]))
          | none => Except.error AstroUtilError.parsec_data_not_available
        | _, _, _, _, _ => Except.ok (some mp, data)
      | _, _, _, _ => Except.error AstroUtilError.parsec_data_not_available

/-- `ParsecData::read_file` (lines 123-134): fold `read_line` over the lines
of one file, starting with no `mass_position`. -/
def read_file_go : List (List (Option ℚ)) → Option ℕ → List (List ParsecLine) →
    Except AstroUtilError (List (List ParsecLine))
  | [], _, data => Except.ok data
  | line :: rest, mass_position, data =>
    match read_line line mass_position data with
    | Except.error e => Except.error e
    | Except.ok (mp, data2) => read_file_go rest mp data2

/-- The per-file loop of `ParsecData::new` (lines 61-63). -/
def read_files_go : List (List (List (Option ℚ))) → List (List ParsecLine) →
    Except AstroUtilError (List (List ParsecLine))
  | [], data => Except.ok data
  | file :: rest, data =>
    match read_file_go file none data with
    | Except.error e => Except.error e
    | Except.ok data2 => read_files_go rest data2

/-- `ParsecData::new` (lines 47-66), with the filesystem abstracted: the
result of `fs::read_dir` + reading each file is passed in as either an I/O
error message or the list of files (each a list of token rows).  A read
failure is mapped to the typed I/O error (`.map_err(AstroUtilError::Io)?`);
otherwise every file is folded over the initially empty per-slot data. -/
def ParsecData_new (dir_listing : Except String (List (List (List (Option ℚ))))) :
    Except AstroUtilError (List (List ParsecLine)) :=
  match dir_listing with
  | Except.error e => Except.error (AstroUtilError.ioErr e)
  | Except.ok files => read_files_go files (List.replicate SORTED_MASSES.length [])

end Parsec

namespace RandomStars

/-- `STARS_PER_LY_CUBED` (`src/stars/random/random_stars.rs` line 23). -/
noncomputable def STARS_PER_LY_CUBED : ℝ := 2.9e-3

/-- The expected star count of `generate_random_stars` (lines 30-32):
density times sphere volume, truncated to an integer by the `as usize` cast
(which truncates toward zero and clamps negatives to 0, as `Int.toNat`
does). -/
noncomputable def number_of_stars_in_sphere (max_distance_lyr : ℝ) : ℕ :=
  (⌊STARS_PER_LY_CUBED * 4 / 3 * Real.pi * max_distance_lyr ^ 3⌋).toNat

/-- `MAX_CHUNKSIZE` (line 43). -/
def MAX_CHUNKSIZE : ℕ := 10000000

/-- Draws performed by one call of `generate_certain_number_of_random_stars`
(lines 81-104): the inclusive range `(0..=number)` yields `number + 1`
elements, one `generate_visible_random_star` draw each. -/
def draws_in_one_call (number : ℕ) : ℕ := number + 1

/-- Total number of per-star draws performed by the chunk loop of
`generate_random_stars` (lines 44-76): while `remaining > MAX_CHUNKSIZE`,
one call on `MAX_CHUNKSIZE` is made and `remaining` decreases by
`MAX_CHUNKSIZE`; a final call on the remainder follows unconditionally. -/
def total_draws (remaining : ℕ) : ℕ :=
  if _h : remaining > MAX_CHUNKSIZE then
    draws_in_one_call MAX_CHUNKSIZE + total_draws (remaining - MAX_CHUNKSIZE)
  else
    draws_in_one_call remaining
termination_by remaining
decreasing_by
  have hM : 0 < MAX_CHUNKSIZE := by norm_num [MAX_CHUNKSIZE]
  omega

/-- Number of `generate_certain_number_of_random_stars` invocations made by
the chunk loop of `generate_random_stars` for a given remaining count. -/
def num_chunk_calls (remaining : ℕ) : ℕ :=
  if _h : remaining > MAX_CHUNKSIZE then 1 + num_chunk_calls (remaining - MAX_CHUNKSIZE)
  else 1
termination_by remaining
decreasing_by
  have hM : 0 < MAX_CHUNKSIZE := by norm_num [MAX_CHUNKSIZE]
  omega

/-- `random_distance` (lines 216-223): `max_distance * cubed.powf(1./3.)`
for a uniform draw `cubed` from `[0, 1)`. -/
noncomputable def random_distance (cubed : ℝ) (max_distance : ℝ) : ℝ :=
  max_distance * cubed ^ ((1 : ℝ) / 3)

/-- The two fields of a generated star written by
`generate_visible_random_star`; the remaining physical fields play no role in
the distance claim and are irrelevant here. -/
structure GenStar where
  distance : ℝ
  pos : ℝ × ℝ × ℝ

/-- `generate_visible_random_star` (lines 144-161), with the randomness and
the catalog lookup abstracted.  Modelled from the spec for the lookup half:
`ParsecData::get_star_data_if_visible` lives in
`src/stars/random/parsec/data.rs`, which is not among the provided sources;
its optional result is passed in as `visible_star`.  When it is `Some`, the
star's `distance` is overwritten with the sampled `random_distance` and its
position with the sampled direction, exactly as in the source. -/
noncomputable def generate_visible_random_star (visible_star : Option GenStar)
    (cubed : ℝ) (max_distance : ℝ) (pos : ℝ × ℝ × ℝ) : Option GenStar :=
  match visible_star with
  | none => none
  | some star => some { star with distance := random_distance cubed max_distance, pos := pos }

/-- `kroupa_mass_distribution` (lines 172-183): broken-power-law weight
`m^(-α)` with regime-dependent slope. -/
noncomputable def kroupa_mass_distribution (m_in_solar_masses : ℝ) : ℝ :=
  let alpha : ℝ :=
    if m_in_solar_masses ≤ 0.08 then 0.3
    else if m_in_solar_masses ≤ 0.5 then 1.3
    else if m_in_solar_masses ≤ 1 then 2.3
    else 2.7
  m_in_solar_masses ^ (-alpha)

/-- The weight list built by `get_mass_distribution` (lines 163-170), one
Kroupa weight per grid mass. -/
noncomputable def get_mass_distribution_weights : List ℝ :=
  Parsec.SORTED_MASSES.map (fun m => kroupa_mass_distribution (m : ℝ))

end RandomStars

end AstroUtils

namespace AstroUtils

theorem fabs_eq_abs (q : ℚ) : fabs q = |q| := by
  unfold fabs
  rcases lt_or_ge q 0 with h | h
  · rw [if_pos h, abs_of_neg h]
  · rw [if_neg (not_lt.mpr h), abs_of_nonneg h]

namespace Parsec

theorem SORTED_MASSES_length : SORTED_MASSES.length = 100 := rfl

theorem sm_lt_succ : ∀ i : Fin 99, sm i.val < sm (i.val + 1) := by decide

theorem sm_strict_mono {i j : ℕ} (hij : i < j) (hj : j ≤ 99) : sm i < sm j := by
  induction j with
  | zero => omega
  | succ k ih =>
    rcases Nat.lt_or_ge i k with h | h
    · exact lt_trans (ih h (by omega)) (sm_lt_succ ⟨k, by omega⟩)
    · have hik : i = k := by omega
      subst hik
      exact sm_lt_succ ⟨i, by omega⟩

/-- Loop invariant of the binary search: starting from a bracketing interval,
the loop returns an adjacent bracketing pair inside the original interval. -/
theorem bsLoop_spec (mass : ℚ) :
    ∀ (fuel mn mx : ℕ), mn < mx → mx ≤ 99 → mx - mn ≤ fuel →
    (0 < mn → sm mn < mass) → (mx < 99 → ¬ sm mx < mass) →
    ∃ a, bsLoop mass fuel mn mx = (a, a + 1) ∧ mn ≤ a ∧ a + 1 ≤ mx ∧
      (0 < a → sm a < mass) ∧ (a + 1 < 99 → ¬ sm (a + 1) < mass) := by
  intro fuel
  induction fuel with
  | zero => intro mn mx h1 _ h3 _ _; omega
  | succ f ih =>
    intro mn mx h1 h2 h3 hlo hhi
    by_cases hgt : mx - mn > 1
    · have hmn_mid : mn < (mx + mn) / 2 := by omega
      have hmid_mx : (mx + mn) / 2 < mx := by omega
      by_cases hc : sm ((mx + mn) / 2) < mass
      · obtain ⟨a, ha1, ha2, ha3, ha4, ha5⟩ :=
          ih ((mx + mn) / 2) mx hmid_mx h2 (by omega) (fun _ => hc) hhi
        refine ⟨a, ?_, by omega, ha3, ha4, ha5⟩
        simpa [bsLoop, hgt, hc] using ha1
      · obtain ⟨a, ha1, ha2, ha3, ha4, ha5⟩ :=
          ih mn ((mx + mn) / 2) hmn_mid (by omega) (by omega) hlo (fun _ => hc)
        refine ⟨a, ?_, ha2, by omega, ha4, ha5⟩
        simpa [bsLoop, hgt, hc] using ha1
    · have hmx : mx = mn + 1 := by omega
      subst hmx
      refine ⟨mn, ?_, le_refl _, le_refl _, hlo, ?_⟩
      · simp [bsLoop, hgt]
      · intro h
        exact hhi (by omega)

/-- For `p < q`, being absolutely closer to `p` than to `q` is exactly lying
strictly below the midpoint. -/
theorem abs_sub_lt_iff_lt_mid {p q x : ℚ} (hpq : p < q) :
    |x - p| < |x - q| ↔ x < (p + q) / 2 := by
  rcases abs_cases (x - p) with ⟨hp1, hp2⟩ | ⟨hp1, hp2⟩ <;>
    rcases abs_cases (x - q) with ⟨hq1, hq2⟩ | ⟨hq1, hq2⟩ <;>
    rw [hp1, hq1] <;>
    constructor <;> intro h <;> linarith

/-- Any query lying strictly between the midpoints around grid slot `i`
resolves to index `i`. -/
theorem get_closest_mass_index_of_between (i : ℕ) (hi : i ≤ 99) (mass : ℚ)
    (hlow : 0 < i → (sm (i - 1) + sm i) / 2 < mass)
    (hhigh : i < 99 → mass < (sm i + sm (i + 1)) / 2) :
    get_closest_mass_index mass = i := by
  obtain ⟨a, heq, _, ha99, haLow, haHigh⟩ :=
    bsLoop_spec mass 100 0 99 (by norm_num) (by norm_num) (by norm_num)
      (fun h => absurd h (lt_irrefl 0)) (fun h => absurd h (lt_irrefl 99))
  have hgoal : get_closest_mass_index mass =
      if fabs (mass - sm a) < fabs (mass - sm (a + 1)) then a else a + 1 := by
    unfold get_closest_mass_index
    rw [SORTED_MASSES_length]
    norm_num [heq]
  have hai : a ≤ i := by
    by_contra hcon
    push_neg at hcon
    have hsa : sm a < mass := haLow (by omega)
    rcases Nat.lt_or_ge i 99 with hi99 | hi99
    · have h1 : mass < (sm i + sm (i + 1)) / 2 := hhigh hi99
      have h2 : sm i < sm (i + 1) := sm_strict_mono (by omega) (by omega)
      have h3 : sm (i + 1) ≤ sm a := by
        rcases Nat.eq_or_lt_of_le (show i + 1 ≤ a by omega) with he | hl
        · rw [he]
        · exact le_of_lt (sm_strict_mono hl (by omega))
      linarith
    · omega
  have hia : i ≤ a + 1 := by
    by_contra hcon
    push_neg at hcon
    have h0i : 0 < i := by omega
    have hmid : (sm (i - 1) + sm i) / 2 < mass := hlow h0i
    have hsii : sm (i - 1) < sm i := sm_strict_mono (by omega) hi
    have hnot : ¬ sm (a + 1) < mass := haHigh (by omega)
    push_neg at hnot
    have h3 : sm (a + 1) ≤ sm (i - 1) := by
      rcases Nat.eq_or_lt_of_le (show a + 1 ≤ i - 1 by omega) with he | hl
      · rw [he]
      · exact le_of_lt (sm_strict_mono hl (by omega))
    linarith
  rcases Nat.eq_or_lt_of_le hai with hae | halt
  · subst hae
    have hmid : mass < (sm a + sm (a + 1)) / 2 := hhigh (by omega)
    have hlt : sm a < sm (a + 1) := sm_strict_mono (by omega) (by omega)
    rw [hgoal, fabs_eq_abs, fabs_eq_abs, if_pos ((abs_sub_lt_iff_lt_mid hlt).mpr hmid)]
  · have hae : i = a + 1 := by omega
    have hlt : sm a < sm (a + 1) := sm_strict_mono (by omega) (by omega)
    have hmid : (sm a + sm (a + 1)) / 2 < mass := by
      have h := hlow (by omega)
      rw [hae] at h
      simpa using h
    rw [hgoal, fabs_eq_abs, fabs_eq_abs, if_neg, hae]
    intro hcon
    exact absurd ((abs_sub_lt_iff_lt_mid hlt).mp hcon) (not_lt.mpr (le_of_lt hmid))

/-- **C1**: every grid mass is mapped to its own index by
`get_closest_mass_index`, and so are `m + ε` and `m - ε` for any positive `ε`
that does not reach the midpoint towards a neighbouring grid mass (the
absolute-difference tie-break between the two remaining candidates is the
final comparison of the embedded function). -/
theorem get_closest_mass_index_grid_and_epsilon (i : ℕ) (hi : i < 100) (ε : ℚ)
    (hε : 0 < ε)
    (hlow : 0 < i → ε < (sm i - sm (i - 1)) / 2)
    (hhigh : i < 99 → ε < (sm (i + 1) - sm i) / 2) :
    get_closest_mass_index (sm i) = i ∧
    get_closest_mass_index (sm i + ε) = i ∧
    get_closest_mass_index (sm i - ε) = i := by
  have hi99 : i ≤ 99 := by omega
  have hlow1 : 0 < i → sm (i - 1) < sm i := fun h => sm_strict_mono (by omega) hi99
  have hhigh1 : i < 99 → sm i < sm (i + 1) := fun h => sm_strict_mono (by omega) (by omega)
  refine ⟨?_, ?_, ?_⟩
  · exact get_closest_mass_index_of_between i hi99 _
      (fun h => by have := hlow1 h; linarith)
      (fun h => by have := hhigh1 h; linarith)
  · exact get_closest_mass_index_of_between i hi99 _
      (fun h => by have := hlow1 h; linarith)
      (fun h => by have h1 := hhigh1 h; have h2 := hhigh h; linarith)
  · exact get_closest_mass_index_of_between i hi99 _
      (fun h => by have h1 := hlow1 h; have h2 := hlow h; linarith)
      (fun h => by have := hhigh1 h; linarith)

/-- Witness for C1 at grid slot 21 (`1.00` solar masses) with `ε = 0.01`. -/
theorem get_closest_mass_index_witness :
    get_closest_mass_index (sm 21) = 21 ∧
    get_closest_mass_index (sm 21 + 1 / 100) = 21 ∧
    get_closest_mass_index (sm 21 - 1 / 100) = 21 :=
  get_closest_mass_index_grid_and_epsilon 21 (by norm_num) (1 / 100) (by norm_num)
    (fun _ => by
      have h1 : sm 21 = cM 100 := by decide
      have h2 : sm 20 = cM 95 := by decide
      rw [h1, h2]
      norm_num [cM, Rat.mkRat_eq_div])
    (fun _ => by
      have h1 : sm 21 = cM 100 := by decide
      have h2 : sm 22 = cM 105 := by decide
      rw [h1, h2]
      norm_num [cM, Rat.mkRat_eq_div])

end Parsec

end AstroUtils

namespace AstroUtils

namespace Evolution

/-- **C2**: with a known age, every quantity dispatches on the sign of
`time_until_death = lifetime - age - time_since_epoch`: when it is negative
the fate's per-quantity function is evaluated at `-time_until_death`,
otherwise the value drifts linearly, `base + rate_per_year * years`, with the
rate read through the getters that default to a zero rate when no lifestage
rates were computed. -/
theorem apply_functions_with_known_age (e : StarDataEvolution) (a : ℚ)
    (h : e.age = some a) (v t : ℚ) :
    (e.lifetime - a - t < 0 →
      (apply_to_mass e v t = e.fate.apply_to_mass v (-(e.lifetime - a - t)) ∧
       apply_to_radius e v t = e.fate.apply_to_radius v (-(e.lifetime - a - t)) ∧
       apply_to_luminous_intensity e v t =
         e.fate.apply_to_luminous_intensity v (-(e.lifetime - a - t)) ∧
       apply_to_temperature e v t = e.fate.apply_to_temperature v (-(e.lifetime - a - t)))) ∧
    (0 ≤ e.lifetime - a - t →
      (apply_to_mass e v t = v + get_lifestage_mass_per_year e * to_yr t ∧
       apply_to_radius e v t = v + get_lifestage_radius_per_year e * to_yr t ∧
       apply_to_luminous_intensity e v t =
         v + get_lifestage_luminous_intensity_per_year e * to_yr t ∧
       apply_to_temperature e v t = v + get_lifestage_temperature_per_year e * to_yr t)) := by
  have htud : time_until_death e t = some (e.lifetime - a - t) := by
    simp [time_until_death, h]
  constructor
  · intro hneg
    refine ⟨?_, ?_, ?_, ?_⟩ <;>
      simp [apply_to_mass, apply_to_radius, apply_to_luminous_intensity,
        apply_to_temperature, htud, hneg]
  · intro hpos
    have hnlt : ¬ (e.lifetime - a - t < 0) := not_lt.mpr hpos
    rcases hl : e.lifestage_evolution with _ | l <;>
      refine ⟨?_, ?_, ?_, ?_⟩ <;>
      simp [apply_to_mass, apply_to_radius, apply_to_luminous_intensity,
        apply_to_temperature, htud, hnlt, hl, get_lifestage_mass_per_year,
        get_lifestage_radius_per_year, get_lifestage_luminous_intensity_per_year,
        get_lifestage_temperature_per_year]

/-- Witness for C2: a star already dead at epoch takes the fate branch. -/
theorem apply_functions_with_known_age_witness :
    apply_to_mass c2_evolution 2 0 =
      c2_evolution.fate.apply_to_mass 2 (-(c2_evolution.lifetime - 5 - 0)) := by
  have h := (apply_functions_with_known_age c2_evolution 5 rfl 2 0).1
  have h2 := h (by norm_num [c2_evolution])
  exact h2.1

/-- **C3**: the rates of `StarDataLifestageEvolution::new(now, then, years)`
are `(now - then) / years` per channel, and evaluating the interpolating
branch at `t = years` starting from the `then` values reproduces the `now`
values exactly, whenever both operands of a channel are present. -/
theorem lifestage_evolution_roundtrip (now t_then : StarData) (years : ℚ)
    (hy : years ≠ 0) (lifetime : ℚ) (fate : StarFate)
    (nm tm nr tr nl tl : ℚ)
    (hm : now.mass = some nm) (hm2 : t_then.mass = some tm)
    (hr : now.radius = some nr) (hr2 : t_then.radius = some tr)
    (hl : now.luminous_intensity = some nl) (hl2 : t_then.luminous_intensity = some tl) :
    apply_to_mass
      ⟨some (StarDataLifestageEvolution.new now t_then years), none, lifetime, fate⟩
      tm (from_yr years) = nm ∧
    apply_to_radius
      ⟨some (StarDataLifestageEvolution.new now t_then years), none, lifetime, fate⟩
      tr (from_yr years) = nr ∧
    apply_to_luminous_intensity
      ⟨some (StarDataLifestageEvolution.new now t_then years), none, lifetime, fate⟩
      tl (from_yr years) = nl ∧
    apply_to_temperature
      ⟨some (StarDataLifestageEvolution.new now t_then years), none, lifetime, fate⟩
      t_then.temperature (from_yr years) = now.temperature := by
  have hS : SECONDS_PER_YEAR ≠ 0 := by
    norm_num [SECONDS_PER_YEAR, Rat.mkRat_eq_div]
  have hyr : to_yr (from_yr years) = years := by
    unfold to_yr from_yr
    field_simp
  refine ⟨?_, ?_, ?_, ?_⟩ <;>
    simp [apply_to_mass, apply_to_radius, apply_to_luminous_intensity,
      apply_to_temperature, time_until_death, StarDataLifestageEvolution.new,
      hm, hm2, hr, hr2, hl, hl2, hyr] <;>
    rw [div_mul_cancel₀ _ hy] <;> ring

/-- Witness for C3 with concrete snapshots two years apart. -/
theorem lifestage_evolution_roundtrip_witness :
    apply_to_mass
      ⟨some (StarDataLifestageEvolution.new c3_now c3_then 2), none, 0, c3_fate⟩
      8 (from_yr 2) = 10 ∧
    apply_to_radius
      ⟨some (StarDataLifestageEvolution.new c3_now c3_then 2), none, 0, c3_fate⟩
      3 (from_yr 2) = 4 ∧
    apply_to_luminous_intensity
      ⟨some (StarDataLifestageEvolution.new c3_now c3_then 2), none, 0, c3_fate⟩
      6 (from_yr 2) = 8 ∧
    apply_to_temperature
      ⟨some (StarDataLifestageEvolution.new c3_now c3_then 2), none, 0, c3_fate⟩
      c3_then.temperature (from_yr 2) = c3_now.temperature :=
  lifestage_evolution_roundtrip c3_now c3_then 2 (by norm_num) 0 c3_fate
    10 8 4 3 8 6 rfl rfl rfl rfl rfl rfl

/-- **C4 (amended)**: `has_changed(then, now)` is true iff (a) death lies in
the *past* within one simulated year of `now` (`time_until_death` is defined,
negative, and of magnitude below `DEATH_TIMESCALE`), or (b) lifestage rates
exist and `|then - now|` exceeds the 1000-year `EVOLUTION_TIMESCALE`. -/
theorem has_changed_iff (e : StarDataEvolution) (t_then t_now : ℚ) :
    has_changed e t_then t_now = true ↔
      ((∃ tud, time_until_death e t_now = some tud ∧ tud < 0 ∧
          fabs tud < DEATH_TIMESCALE) ∨
        (e.lifestage_evolution.isSome = true ∧
          fabs (t_then - t_now) > EVOLUTION_TIMESCALE)) := by
  unfold has_changed
  cases h : time_until_death e t_now with
  | none => simp [h]
  | some tud => simp [h]

/-- Counterexample to C4 as stated: for a star whose death lies half a year
in the *future*, `|time_until_death| < 1 year` holds (the claim's condition
(a), death within ±1 year), no lifestage rates exist, and yet `has_changed`
returns `false`. -/
theorem has_changed_claim_counterexample :
    time_until_death c4_evolution 0 = some (DEATH_TIMESCALE / 2) ∧
    (0 : ℚ) < DEATH_TIMESCALE / 2 ∧
    fabs (DEATH_TIMESCALE / 2) < DEATH_TIMESCALE ∧
    c4_evolution.lifestage_evolution = none ∧
    has_changed c4_evolution 0 0 = false := by
  have hDT : DEATH_TIMESCALE = 31557600 := by
    norm_num [DEATH_TIMESCALE, Rat.mkRat_eq_div]
  have h1 : time_until_death c4_evolution 0 = some (DEATH_TIMESCALE / 2) := by
    simp [time_until_death, c4_evolution]
  refine ⟨h1, by rw [hDT]; norm_num, ?_, rfl, ?_⟩
  · rw [fabs_eq_abs, hDT]
    norm_num
  · rw [has_changed, h1]
    have h2 : ¬ (DEATH_TIMESCALE / 2 < 0) := by rw [hDT]; norm_num
    simp [c4_evolution, h2]

/-- **C5**: with unknown age (so `time_until_death` is `None` and the fate
branch is unreachable) and lifestage rates absent or all zero, every quantity
is invariant under any `time_since_epoch`. -/
theorem unknown_age_static (e : StarDataEvolution) (h : e.age = none)
    (hz : e.lifestage_evolution = none ∨ e.lifestage_evolution = some ⟨0, 0, 0, 0⟩)
    (v t : ℚ) :
    time_until_death e t = none ∧
    apply_to_mass e v t = v ∧ apply_to_radius e v t = v ∧
    apply_to_luminous_intensity e v t = v ∧ apply_to_temperature e v t = v := by
  have htud : time_until_death e t = none := by simp [time_until_death, h]
  rcases hz with hz | hz <;>
    exact ⟨htud, by simp [apply_to_mass, htud, hz],
      by simp [apply_to_radius, htud, hz],
      by simp [apply_to_luminous_intensity, htud, hz],
      by simp [apply_to_temperature, htud, hz]⟩

/-- Witness for C5 at a concrete zero-rate, unknown-age state. -/
theorem unknown_age_static_witness :
    time_until_death c5_evolution 11 = none ∧
    apply_to_mass c5_evolution 3 11 = 3 ∧ apply_to_radius c5_evolution 3 11 = 3 ∧
    apply_to_luminous_intensity c5_evolution 3 11 = 3 ∧
    apply_to_temperature c5_evolution 3 11 = 3 :=
  unknown_age_static c5_evolution rfl (Or.inr rfl) 3 11

end Evolution

end AstroUtils

namespace AstroUtils

namespace Parsec

/-- Invariant of the `get_closest_params` scan, starting from a finite best
`(b, bi)` at running index `i`: either nothing in the remaining list beats
`b` and the running best index is returned, or the first strict improver of
the eventual minimum is selected. -/
theorem cpGo_spec (t : ℚ) :
    ∀ (l : List ParsecLine) (i : ℕ) (b : ℚ) (bi : ℕ),
    (cpGo t l i (some b) bi = bi ∧
      ∀ k, k < l.length → b ≤ fabs ((l.getD k default).age - t)) ∨
    (∃ k, k < l.length ∧ cpGo t l i (some b) bi = i + k ∧
      fabs ((l.getD k default).age - t) < b ∧
      (∀ j, j < l.length →
        fabs ((l.getD k default).age - t) ≤ fabs ((l.getD j default).age - t)) ∧
      (∀ j, j < k →
        fabs ((l.getD k default).age - t) < fabs ((l.getD j default).age - t))) := by
  intro l
  induction l with
  | nil =>
    intro i b bi
    left
    exact ⟨rfl, fun k hk => absurd hk (by simp)⟩
  | cons a rest ih =>
    intro i b bi
    by_cases hc : fabs (a.age - t) < b
    · have step : cpGo t (a :: rest) i (some b) bi =
          cpGo t rest (i + 1) (some (fabs (a.age - t))) i := by
        simp [cpGo, hc]
      rcases ih (i + 1) (fabs (a.age - t)) i with ⟨h1, h2⟩ | ⟨k, hk, h1, h2, h3, h4⟩
      · right
        refine ⟨0, by simp, by rw [step, h1]; omega, hc, ?_, fun j hj => absurd hj (by omega)⟩
        intro j hj
        match j with
        | 0 => simp
        | j + 1 =>
          simp only [List.getD_cons_succ, List.getD_cons_zero]
          exact h2 j (by simpa using hj)
      · right
        refine ⟨k + 1, by simpa using hk, by rw [step, h1]; omega,
          lt_trans h2 hc, ?_, ?_⟩
        · intro j hj
          match j with
          | 0 =>
            simp only [List.getD_cons_succ, List.getD_cons_zero]
            exact le_of_lt h2
          | j + 1 =>
            simp only [List.getD_cons_succ]
            exact h3 j (by simpa using hj)
        · intro j hj
          match j with
          | 0 =>
            simp only [List.getD_cons_succ, List.getD_cons_zero]
            exact h2
          | j + 1 =>
            simp only [List.getD_cons_succ]
            exact h4 j (by omega)
    · have step : cpGo t (a :: rest) i (some b) bi =
          cpGo t rest (i + 1) (some b) bi := by
        simp [cpGo, hc]
      push_neg at hc
      rcases ih (i + 1) b bi with ⟨h1, h2⟩ | ⟨k, hk, h1, h2, h3, h4⟩
      · left
        refine ⟨by rw [step, h1], ?_⟩
        intro k hk
        match k with
        | 0 => simpa using hc
        | k + 1 =>
          simp only [List.getD_cons_succ]
          exact h2 k (by simpa using hk)
      · right
        refine ⟨k + 1, by simpa using hk, by rw [step, h1]; omega, h2, ?_, ?_⟩
        · intro j hj
          match j with
          | 0 =>
            simp only [List.getD_cons_succ, List.getD_cons_zero]
            exact le_trans (le_of_lt h2) hc
          | j + 1 =>
            simp only [List.getD_cons_succ]
            exact h3 j (by simpa using hj)
        · intro j hj
          match j with
          | 0 =>
            simp only [List.getD_cons_succ, List.getD_cons_zero]
            exact lt_of_lt_of_le h2 hc
          | j + 1 =>
            simp only [List.getD_cons_succ]
            exact h4 j (by omega)

/-- **C9**: for a non-empty trajectory, `get_closest_params` selects an
in-range index whose snapshot age minimises the absolute difference to the
target age, and every earlier index is strictly worse — so on a tie the
lower (first-found) index wins. -/
theorem get_closest_params_is_argmin (trajectory : List ParsecLine) (t : ℚ)
    (hne : trajectory ≠ []) :
    get_closest_params_index trajectory t < trajectory.length ∧
    get_closest_params trajectory t =
      trajectory.getD (get_closest_params_index trajectory t) default ∧
    (∀ j, j < trajectory.length →
      fabs ((trajectory.getD (get_closest_params_index trajectory t) default).age - t)
        ≤ fabs ((trajectory.getD j default).age - t)) ∧
    (∀ j, j < get_closest_params_index trajectory t →
      fabs ((trajectory.getD (get_closest_params_index trajectory t) default).age - t)
        < fabs ((trajectory.getD j default).age - t)) := by
  match trajectory with
  | [] => exact absurd rfl hne
  | a :: rest =>
    have hstart : get_closest_params_index (a :: rest) t =
        cpGo t rest 1 (some (fabs (a.age - t))) 0 := by
      simp [get_closest_params_index, cpGo]
    rcases cpGo_spec t rest 1 (fabs (a.age - t)) 0 with ⟨h1, h2⟩ | ⟨k, hk, h1, h2, h3, h4⟩
    · have hidx : get_closest_params_index (a :: rest) t = 0 := by rw [hstart, h1]
      refine ⟨by rw [hidx]; simp, rfl, ?_, fun j hj => absurd (hidx ▸ hj) (by omega)⟩
      intro j hj
      rw [hidx]
      match j with
      | 0 => simp
      | j + 1 =>
        simp only [List.getD_cons_succ, List.getD_cons_zero]
        exact h2 j (by simpa using hj)
    · have hidx : get_closest_params_index (a :: rest) t = k + 1 := by
        rw [hstart, h1]; omega
      refine ⟨by rw [hidx]; simpa using hk, rfl, ?_, ?_⟩
      · intro j hj
        rw [hidx]
        match j with
        | 0 =>
          simp only [List.getD_cons_succ, List.getD_cons_zero]
          exact le_of_lt h2
        | j + 1 =>
          simp only [List.getD_cons_succ]
          exact h3 j (by simpa using hj)
      · intro j hj
        rw [hidx] at hj
        rw [hidx]
        match j with
        | 0 =>
          simp only [List.getD_cons_succ, List.getD_cons_zero]
          exact h2
        | j + 1 =>
          simp only [List.getD_cons_succ]
          exact h4 j (by omega)

/-- Witness for C9 on a two-snapshot trajectory with target age between the
snapshot ages. -/
theorem get_closest_params_witness :
    get_closest_params_index [⟨1, 10, 0, 0, 0⟩, ⟨1, 20, 0, 0, 0⟩] 14 < 2 :=
  (get_closest_params_is_argmin [⟨1, 10, 0, 0, 0⟩, ⟨1, 20, 0, 0, 0⟩] 14 (by simp)).1

end Parsec

end AstroUtils

namespace AstroUtils

namespace Parsec

/-- **C8**: row/error policy of catalog construction.  (1) A row missing the
mass column fails the build with the `ParsecDataNotAvailable` typed error;
(2) once a mass position is fixed, a row missing any later required column
(here: the last one, `LOG_R`, whose absence is implied by any shorter row)
also fails the build; (3) a structurally complete row in which some numeric
field fails to parse is skipped silently: the build continues with the state
and data unchanged; (4) a directory-read failure propagates as the typed
I/O error. -/
theorem read_line_row_policy :
    (∀ entries mass_position data, entries.get? MASS_INDEX = none →
      read_line entries mass_position data =
        Except.error AstroUtilError.parsec_data_not_available) ∧
    (∀ entries p data, entries.get? LOG_R_INDEX = none →
      read_line entries (some p) data =
        Except.error AstroUtilError.parsec_data_not_available) ∧
    (∀ entries p data t1 t2 t3 t4 t5,
      entries.get? MASS_INDEX = some t1 → entries.get? AGE_INDEX = some t2 →
      entries.get? LOG_L_INDEX = some t3 → entries.get? LOG_TE_INDEX = some t4 →
      entries.get? LOG_R_INDEX = some t5 →
      (t1 = none ∨ t2 = none ∨ t3 = none ∨ t4 = none ∨ t5 = none) →
      read_line entries (some p) data = Except.ok (some p, data)) ∧
    (∀ e, ParsecData_new (Except.error e) =
      Except.error (AstroUtilError.ioErr e)) := by
  refine ⟨?_, ?_, ?_, fun e => rfl⟩
  · intro entries mass_position data h
    unfold read_line
    rw [h]
  · intro entries p data h5
    unfold read_line
    rcases h1 : entries.get? MASS_INDEX with _ | t1
    · rfl
    · rcases h2 : entries.get? AGE_INDEX with _ | t2 <;>
        rcases h3 : entries.get? LOG_L_INDEX with _ | t3 <;>
        rcases h4 : entries.get? LOG_TE_INDEX with _ | t4 <;>
        rw [h5]
  · intro entries p data t1 t2 t3 t4 t5 h1 h2 h3 h4 h5 hdis
    unfold read_line
    rw [h1, h2, h3, h4, h5]
    rcases t1 with _ | v1 <;> rcases t2 with _ | v2 <;> rcases t3 with _ | v3 <;>
      rcases t4 with _ | v4 <;> rcases t5 with _ | v5 <;>
      first
        | rfl
        | simp at hdis

/-- Witness for C8: a row with all six columns present whose age token fails
to parse is skipped with state and data unchanged, and a failed directory
read surfaces as the typed I/O error. -/
theorem read_line_row_policy_witness :
    read_line [none, some 1, none, some 2, some 3, some 4] (some 0) [[]] =
      Except.ok (some 0, [[]]) ∧
    ParsecData_new (Except.error "dir") =
      Except.error (AstroUtilError.ioErr "dir") :=
  ⟨read_line_row_policy.2.2.1 [none, some 1, none, some 2, some 3, some 4] 0 [[]]
      (some 1) none (some 2) (some 3) (some 4) rfl rfl rfl rfl rfl
      (Or.inr (Or.inl rfl)),
    read_line_row_policy.2.2.2 "dir"⟩

end Parsec

namespace RandomStars

/-- The chunked draw count always evaluates to the remaining count plus one
extra draw per chunk invocation (the inclusive `0..=number` range). -/
theorem total_draws_eq (N : ℕ) : total_draws N = N + num_chunk_calls N := by
  induction N using Nat.strong_induction_on with
  | _ n ih =>
    have hM : 0 < MAX_CHUNKSIZE := by norm_num [MAX_CHUNKSIZE]
    by_cases h : n > MAX_CHUNKSIZE
    · rw [total_draws, num_chunk_calls, dif_pos h, dif_pos h,
        ih (n - MAX_CHUNKSIZE) (by omega)]
      unfold draws_in_one_call
      omega
    · rw [total_draws, num_chunk_calls, dif_neg h, dif_neg h]
      unfold draws_in_one_call
      omega

/-- Counterexample to C6 as stated: with an expected count of `N = 0` stars
the code still performs one draw (`(0..=0)` is non-empty), so the number of
draws is not exactly `N`; likewise each full chunk performs
`MAX_CHUNKSIZE + 1` draws, exceeding the claimed 10,000,000 bound. -/
theorem generate_random_stars_draw_count_counterexample :
    total_draws 0 = 1 ∧ (1 : ℕ) ≠ 0 ∧
    draws_in_one_call MAX_CHUNKSIZE = 10000001 := by
  refine ⟨?_, by omega, by norm_num [draws_in_one_call, MAX_CHUNKSIZE]⟩
  rw [total_draws, dif_neg (by norm_num [MAX_CHUNKSIZE])]
  rfl

/-- **C6 (amended)**: `generate_random_stars` computes the expected count `N`
as the fixed stellar density times the sphere volume `4/3·π·D³`, truncated to
an integer, and then performs `N + c` per-star draws, where `c` is the number
of chunk invocations — each chunk's inclusive `0..=number` range yields one
draw more than its nominal size, so a full chunk performs exactly
`10,000,001` draws. -/
theorem generate_random_stars_draw_count (max_distance_lyr : ℝ) :
    total_draws (number_of_stars_in_sphere max_distance_lyr) =
      number_of_stars_in_sphere max_distance_lyr +
        num_chunk_calls (number_of_stars_in_sphere max_distance_lyr) ∧
    number_of_stars_in_sphere max_distance_lyr =
      (⌊STARS_PER_LY_CUBED * 4 / 3 * Real.pi * max_distance_lyr ^ 3⌋).toNat ∧
    draws_in_one_call MAX_CHUNKSIZE = 10000001 :=
  ⟨total_draws_eq _, rfl, by norm_num [draws_in_one_call, MAX_CHUNKSIZE]⟩

/-- **C7**: for any uniform draw `cubed ∈ [0, 1)` and positive maximum
distance, a star returned by `generate_visible_random_star` carries the
sampled radial distance `D * cubed^(1/3)`, which never exceeds `D` and in
particular is below `1.01 * D`. -/
theorem generated_star_distance_lt (visible_star : Option GenStar)
    (cubed max_distance : ℝ) (pos : ℝ × ℝ × ℝ) (star : GenStar)
    (h0 : 0 ≤ cubed) (h1 : cubed < 1) (hD : 0 < max_distance)
    (hstar : generate_visible_random_star visible_star cubed max_distance pos =
      some star) :
    star.distance ≤ max_distance ∧ star.distance < 1.01 * max_distance := by
  rcases visible_star with _ | s
  · exact absurd hstar (by simp [generate_visible_random_star])
  · have hd : star.distance = random_distance cubed max_distance := by
      simp [generate_visible_random_star] at hstar
      rw [← hstar]
    have hroot_lt : cubed ^ ((1 : ℝ) / 3) < 1 :=
      Real.rpow_lt_one h0 h1 (by norm_num)
    have hle : star.distance ≤ max_distance := by
      rw [hd, random_distance]
      calc max_distance * cubed ^ ((1 : ℝ) / 3) ≤ max_distance * 1 :=
            mul_le_mul_of_nonneg_left (le_of_lt hroot_lt) (le_of_lt hD)
        _ = max_distance := mul_one _
    exact ⟨hle, lt_of_le_of_lt hle (by nlinarith)⟩

/-- Witness for C7 at `cubed = 1/4`, `D = 2`, with a visible star found. -/
theorem generated_star_distance_lt_witness :
    (⟨random_distance (1 / 4) 2, (0, 0, 0)⟩ : GenStar).distance ≤ 2 ∧
    (⟨random_distance (1 / 4) 2, (0, 0, 0)⟩ : GenStar).distance < 1.01 * 2 :=
  generated_star_distance_lt (some ⟨5, (1, 1, 1)⟩) (1 / 4) 2 (0, 0, 0)
    ⟨random_distance (1 / 4) 2, (0, 0, 0)⟩
    (by norm_num) (by norm_num) (by norm_num) rfl

/-- All grid masses are at least `0.09` solar masses. -/
theorem sorted_masses_ge : ∀ m ∈ Parsec.SORTED_MASSES, cM 9 ≤ m := by decide

/-- **C10**: the Kroupa weight of every grid mass (each at least 0.09 solar
masses) is strictly positive, and the weight list is non-empty with a
strictly positive total — exactly the conditions under which
`WeightedIndex::new(weights).unwrap()` cannot panic. -/
theorem mass_distribution_weights_positive :
    Parsec.SORTED_MASSES ≠ [] ∧
    (∀ m ∈ Parsec.SORTED_MASSES, cM 9 ≤ m) ∧
    (∀ w ∈ get_mass_distribution_weights, 0 < w) ∧
    0 < get_mass_distribution_weights.sum := by
  have hpos : ∀ w ∈ get_mass_distribution_weights, 0 < w := by
    intro w hw
    have hw2 : w ∈ Parsec.SORTED_MASSES.map
        (fun m : ℚ => kroupa_mass_distribution (m : ℝ)) := hw
    obtain ⟨m, hm, hmw⟩ := List.mem_map.mp hw2
    have h9 : cM 9 ≤ m := sorted_masses_ge m hm
    have h9r : (0 : ℚ) < cM 9 := by norm_num [cM, Rat.mkRat_eq_div]
    have hmr : (0 : ℝ) < (m : ℝ) := by
      have h0 : (0 : ℚ) < m := lt_of_lt_of_le h9r h9
      exact_mod_cast h0
    rw [← hmw]
    exact Real.rpow_pos_of_pos hmr _
  refine ⟨by simp [Parsec.SORTED_MASSES], sorted_masses_ge, hpos, ?_⟩
  apply List.sum_pos _ hpos
  simp [get_mass_distribution_weights, Parsec.SORTED_MASSES]

end RandomStars

end AstroUtils
